import Mathlib

/-!
Shallow embedding of `update_landing.py`, a script that holds two constants
(a destination path and a payload string) and performs one operation:
open the destination for writing (create if missing, truncate if present)
and write the payload, with the handle scoped by a `with` block.

The filesystem is modelled explicitly: which directories exist, the contents
of each file, which paths the process may write to, and whether the device
fails the write (disk full or another OS-reported I/O error).  `open(p, 'w')`
raises `FileNotFoundError` when the parent directory is missing and
`PermissionError` when the path is not writable; these are modelled as
`Except` errors.  Handle acquisition and release are recorded in a trace.
-/

namespace UpdateLanding

/-- Filesystem-level errors that Python's `open` and `write` can raise:
missing parent directory, missing write permission, or an OS-level device
error during the write itself (for instance, disk full). -/
inductive IOErr where
  | fileNotFound
  | permissionDenied
  | deviceError
deriving DecidableEq

/-- A model of the filesystem as seen by the script: which directory paths
exist, the contents of each file (`none` when the file is absent), which
paths the current process may write to, and whether the device fails the
write operation itself. -/
structure FS where
  dirs : String → Bool
  contents : String → Option String
  writable : String → Bool
  writeFails : Bool

/-- Parent directory of a path: the characters strictly before the final
slash (so the parent of "/tmp/out.txt" is "/tmp").  A path with no slash has
parent "". -/
def parentDir (p : String) : String :=
  match p.data.reverse.dropWhile (fun c => c != '/') with
  | [] => ""
  | _ :: tail => String.mk tail.reverse

/-- Replace (or create) the file at path `p` with contents `s`, leaving the
rest of the filesystem untouched. -/
def FS.setFile (fs : FS) (p s : String) : FS :=
  { fs with contents := fun q => if q = p then some s else fs.contents q }

/-- Python `open(p, 'w')`: fails with `FileNotFoundError` when the parent
directory does not exist, with `PermissionError` when the path is not
writable; otherwise creates the file if absent and truncates it to empty. -/
def openW (fs : FS) (p : String) : Except IOErr FS :=
  if fs.dirs (parentDir p) = false then Except.error IOErr.fileNotFound
  else if fs.writable p = false then Except.error IOErr.permissionDenied
  else Except.ok (fs.setFile p "")

/-- File-handle events: acquisition of the handle for a path, the write
through it, and its release (flush and close). -/
inductive Ev where
  | opened (p : String)
  | wrote (p : String)
  | closed (p : String)
deriving DecidableEq

/-- Process-visible state: the filesystem, the list of file handles still
open after control returns, and the trace of handle events so far. -/
structure St where
  fs : FS
  openHandles : List String
  trace : List Ev

/-- The operation `with open(p, 'w') as f: f.write(t)` (lines 369-370 of the
script).  On a successful open the handle is acquired; if the write itself
raises, the `with` block still flushes and closes the handle before the
error propagates, leaving the file truncated; on success the payload is the
file's new content and the handle is closed. -/
def runScript (p t : String) (st : St) : Except IOErr Unit × St :=
  match openW st.fs p with
  | Except.error e => (Except.error e, st)
  | Except.ok fs1 =>
    if fs1.writeFails then
      (Except.error IOErr.deviceError,
        { fs := fs1, openHandles := st.openHandles,
          trace := st.trace ++ [Ev.opened p, Ev.closed p] })
    else
      (Except.ok (),
        { fs := fs1.setFile p t, openHandles := st.openHandles,
          trace := st.trace ++ [Ev.opened p, Ev.wrote p, Ev.closed p] })

/-- The destination path constant (line 4 of `update_landing.py`). -/
def file_path : String :=
  "/Users/bizer/Development/Projects/ChatSQL/ChatSQL-ui/src/pages/ChatSQLLanding.tsx"

/-- The payload constant `new_content` (lines 6-367 of `update_landing.py`):
the complete literal, reproduced byte for byte (braces, quotes, apostrophes,
backticks and the one non-ASCII character are written with escape codes). -/
def new_content : String :=
  "import \x7b ArrowRight, Check, Database, Zap, Shield, Code, Cpu, Server, Layers, Terminal, Sparkles, Lock, GitBranch, Search, ChevronDown \x7d from \x27lucide-react\x27;\nimport \x7b useEffect \x7d from \x27react\x27;\nimport \x7b motion, useMotionTemplate, useMotionValue, animate \x7d from \x27framer-motion\x27;\nimport \x7b Link \x7d from \x27react-router-dom\x27;\n\n// Import logos\nimport amazonLogo from \x27../public/amazon.png\x27;\nimport coinbaseLogo from \x27../public/coinbase.png\x27;\nimport googleLogo from \x27../public/google.png\x27;\nimport microsoftLogo from \x27../public/microsoft.png\x27;\nimport nikeLogo from \x27../public/nike.png\x27;\n\n// --- Components ---\n\nconst SquareGrid = () => \x7b\n  const x = useMotionValue(50);\n  const y = useMotionValue(50);\n\n  useEffect(() => \x7b\n    const controlsX = animate(x, [0, 100, 50, 20, 80, 0], \x7b\n      duration: 35,\n      repeat: Infinity,\n      repeatType: \"mirror\",\n      ease: \"linear\",\n    \x7d);\n\n    const controlsY = animate(y, [0, 30, 100, 70, 0], \x7b\n      duration: 40,\n      repeat: Infinity,\n      repeatType: \"mirror\",\n      ease: \"linear\",\n    \x7d);\n\n    return () => \x7b\n      controlsX.stop();\n      controlsY.stop();\n    \x7d;\n  \x7d, []);\n\n  const maskImage = useMotionTemplate\x60radial-gradient(350px circle at $\x7bx\x7d% $\x7by\x7d%, black, transparent)\x60;\n\n  return (\n    <div className=\"absolute inset-0 z-0 overflow-hidden pointer-events-none\">\n      <div\n        className=\"absolute inset-0 opacity-[0.08]\"\n        style=\x7b\x7b\n          backgroundImage: \x60\n            linear-gradient(to right, rgba(255, 255, 255, 0.1) 1px, transparent 1px),\n            linear-gradient(to bottom, rgba(255, 255, 255, 0.1) 1px, transparent 1px)\n          \x60,\n          backgroundSize: \x2740px 40px\x27,\n        \x7d\x7d\n      />\n      <motion.div\n        className=\"absolute inset-0\"\n        style=\x7b\x7b\n          backgroundImage: \x60\n            linear-gradient(to right, rgba(99, 102, 241, 0.25) 1px, transparent 1px),\n            linear-gradient(to bottom, rgba(99, 102, 241, 0.25) 1px, transparent 1px)\n          \x60,\n          backgroundSize: \x2740px 40px\x27,\n          maskImage,\n          WebkitMaskImage: maskImage,\n        \x7d\x7d\n      />\n      <div className=\"absolute inset-0 bg-gradient-to-b from-transparent via-[#020617]/80 to-[#020617]\" />\n    </div>\n  );\n\x7d;\n\nconst Navbar = () => (\n  <nav className=\"fixed top-0 left-0 right-0 z-50 bg-[#020617]/80 backdrop-blur-md border-b border-white/5\">\n    <div className=\"max-w-7xl mx-auto px-6 h-16 flex items-center justify-between\">\n      <div className=\"flex items-center gap-2\">\n        <div className=\"w-8 h-8 bg-gradient-to-br from-indigo-500 to-purple-600 rounded-lg flex items-center justify-center shadow-lg shadow-indigo-500/20\">\n          <Database className=\"w-4 h-4 text-white\" />\n        </div>\n        <span className=\"text-lg font-bold text-white tracking-tight\">ChatSQL</span>\n      </div>\n\n      <div className=\"hidden md:flex items-center gap-8\">\n        <a href=\"#features\" className=\"text-sm font-medium text-gray-400 hover:text-white transition-colors\">Features</a>\n        <a href=\"#how-it-works\" className=\"text-sm font-medium text-gray-400 hover:text-white transition-colors\">How it works</a>\n        <a href=\"#pricing\" className=\"text-sm font-medium text-gray-400 hover:text-white transition-colors\">Pricing</a>\n      </div>\n\n      <div className=\"flex items-center gap-4\">\n        <Link to=\"/auth/signin\" className=\"text-sm font-medium text-gray-300 hover:text-white transition-colors hidden sm:block\">Sign In</Link>\n        <Link to=\"/dashboard\" className=\"bg-white text-black hover:bg-gray-200 px-4 py-2 rounded-md text-sm font-semibold transition-all\">\n          Get Started\n        </Link>\n      </div>\n    </div>\n  </nav>\n);\n\nconst FeatureCard = (\x7b icon: Icon, title, description \x7d: \x7b icon: any, title: string, description: string \x7d) => (\n  <div className=\"p-6 rounded-xl bg-[#0f172a] border border-white/5 hover:border-indigo-500/30 transition-all group\">\n    <div className=\"w-12 h-12 rounded-lg bg-indigo-500/10 flex items-center justify-center mb-4 group-hover:bg-indigo-500/20 transition-colors\">\n      <Icon className=\"w-6 h-6 text-indigo-400\" />\n    </div>\n    <h3 className=\"text-lg font-semibold text-white mb-2\">\x7btitle\x7d</h3>\n    <p className=\"text-gray-400 text-sm leading-relaxed\">\x7bdescription\x7d</p>\n  </div>\n);\n\nconst ChatSQLLanding = () => \x7b\n  return (\n    <div className=\"min-h-screen bg-[#020617] text-white selection:bg-indigo-500/30\">\n      <Navbar />\n      \n      \x7b/* Hero Section */\x7d\n      <section className=\"relative pt-32 pb-20 px-6 overflow-hidden\">\n        <SquareGrid />\n        \n        <div className=\"max-w-5xl mx-auto text-center relative z-10\">\n          <motion.div\n            initial=\x7b\x7b opacity: 0, y: 20 \x7d\x7d\n            animate=\x7b\x7b opacity: 1, y: 0 \x7d\x7d\n            transition=\x7b\x7b duration: 0.5 \x7d\x7d\n            className=\"inline-flex items-center gap-2 px-3 py-1 rounded-full bg-indigo-500/10 border border-indigo-500/20 text-indigo-300 text-xs font-medium mb-8\"\n          >\n            <Sparkles className=\"w-3 h-3\" />\n            <span>v2.0 is now available</span>\n          </motion.div>\n\n          <motion.h1\n            initial=\x7b\x7b opacity: 0, y: 20 \x7d\x7d\n            animate=\x7b\x7b opacity: 1, y: 0 \x7d\x7d\n            transition=\x7b\x7b duration: 0.5, delay: 0.1 \x7d\x7d\n            className=\"text-5xl md:text-7xl font-bold tracking-tight mb-6 bg-clip-text text-transparent bg-gradient-to-b from-white to-white/60\"\n          >\n            Talk to your database <br />\n            <span className=\"text-indigo-400\">in plain English</span>\n          </motion.h1>\n\n          <motion.p\n            initial=\x7b\x7b opacity: 0, y: 20 \x7d\x7d\n            animate=\x7b\x7b opacity: 1, y: 0 \x7d\x7d\n            transition=\x7b\x7b duration: 0.5, delay: 0.2 \x7d\x7d\n            className=\"text-lg md:text-xl text-gray-400 mb-10 max-w-2xl mx-auto leading-relaxed\"\n          >\n            Build, query, and manage your SQL databases using natural language. \n            The modern SQL editor designed for the AI era.\n          </motion.p>\n\n          <motion.div\n            initial=\x7b\x7b opacity: 0, y: 20 \x7d\x7d\n            animate=\x7b\x7b opacity: 1, y: 0 \x7d\x7d\n            transition=\x7b\x7b duration: 0.5, delay: 0.3 \x7d\x7d\n            className=\"flex flex-col sm:flex-row items-center justify-center gap-4\"\n          >\n            <Link to=\"/dashboard\" className=\"w-full sm:w-auto bg-indigo-600 hover:bg-indigo-500 text-white px-8 py-3.5 rounded-lg font-semibold transition-all flex items-center justify-center gap-2 shadow-lg shadow-indigo-500/25\">\n              Start Building Free\n              <ArrowRight className=\"w-4 h-4\" />\n            </Link>\n            <button className=\"w-full sm:w-auto px-8 py-3.5 rounded-lg font-semibold text-gray-300 border border-white/10 hover:bg-white/5 transition-all flex items-center justify-center gap-2\">\n              <Terminal className=\"w-4 h-4\" />\n              View Documentation\n            </button>\n          </motion.div>\n        </div>\n\n        \x7b/* Dashboard Preview */\x7d\n        <motion.div\n          initial=\x7b\x7b opacity: 0, y: 40 \x7d\x7d\n          animate=\x7b\x7b opacity: 1, y: 0 \x7d\x7d\n          transition=\x7b\x7b duration: 0.8, delay: 0.4 \x7d\x7d\n          className=\"max-w-6xl mx-auto mt-20 relative z-10\"\n        >\n          <div className=\"rounded-xl bg-[#0f172a] border border-white/10 shadow-2xl overflow-hidden\">\n            <div className=\"h-10 bg-[#1e293b] border-b border-white/5 flex items-center px-4 gap-2\">\n              <div className=\"flex gap-1.5\">\n                <div className=\"w-3 h-3 rounded-full bg-red-500/20\" />\n                <div className=\"w-3 h-3 rounded-full bg-yellow-500/20\" />\n                <div className=\"w-3 h-3 rounded-full bg-green-500/20\" />\n              </div>\n              <div className=\"ml-4 text-xs text-gray-500 font-mono\">Query Console</div>\n            </div>\n            <div className=\"grid grid-cols-12 h-[500px] bg-[#020617]\">\n              \x7b/* Sidebar Mockup */\x7d\n              <div className=\"col-span-2 border-r border-white/5 p-4 hidden md:block\">\n                <div className=\"space-y-3\">\n                  <div className=\"h-2 w-20 bg-white/10 rounded\" />\n                  <div className=\"h-2 w-16 bg-white/10 rounded\" />\n                  <div className=\"h-2 w-24 bg-white/10 rounded\" />\n                </div>\n              </div>\n              \x7b/* Editor Mockup */\x7d\n              <div className=\"col-span-12 md:col-span-10 p-6\">\n                <div className=\"flex items-center gap-2 mb-4\">\n                  <div className=\"px-3 py-1 rounded bg-indigo-500/10 text-indigo-400 text-xs font-mono\">SELECT * FROM users WHERE active = true</div>\n                </div>\n                <div className=\"space-y-2 font-mono text-sm\">\n                  <div className=\"flex gap-4 text-gray-500 border-b border-white/5 pb-2\">\n                    <span className=\"w-10\">id</span>\n                    <span className=\"w-32\">email</span>\n                    <span className=\"w-24\">role</span>\n                    <span className=\"w-20\">status</span>\n                  </div>\n                  <div className=\"flex gap-4 text-gray-300\">\n                    <span className=\"w-10 text-indigo-400\">1</span>\n                    <span className=\"w-32\">alex@example.com</span>\n                    <span className=\"w-24\">admin</span>\n                    <span className=\"w-20 text-green-400\">active</span>\n                  </div>\n                  <div className=\"flex gap-4 text-gray-300\">\n                    <span className=\"w-10 text-indigo-400\">2</span>\n                    <span className=\"w-32\">sarah@example.com</span>\n                    <span className=\"w-24\">editor</span>\n                    <span className=\"w-20 text-green-400\">active</span>\n                  </div>\n                  <div className=\"flex gap-4 text-gray-300\">\n                    <span className=\"w-10 text-indigo-400\">3</span>\n                    <span className=\"w-32\">mike@example.com</span>\n                    <span className=\"w-24\">viewer</span>\n                    <span className=\"w-20 text-green-400\">active</span>\n                  </div>\n                </div>\n              </div>\n            </div>\n          </div>\n          \x7b/* Glow effect behind dashboard */\x7d\n          <div className=\"absolute -inset-4 bg-indigo-500/20 blur-3xl -z-10 rounded-[3rem] opacity-50\" />\n        </motion.div>\n      </section>\n\n      \x7b/* Trusted By */\x7d\n      <section className=\"py-10 border-y border-white/5 bg-[#020617]/50\">\n        <div className=\"max-w-7xl mx-auto px-6\">\n          <p className=\"text-center text-sm text-gray-500 mb-8\">TRUSTED BY ENGINEERING TEAMS AT</p>\n          <div className=\"flex flex-wrap justify-center items-center gap-12 opacity-50 grayscale hover:grayscale-0 transition-all duration-500\">\n            <img src=\x7bamazonLogo\x7d alt=\"Amazon\" className=\"h-6 object-contain\" />\n            <img src=\x7bgoogleLogo\x7d alt=\"Google\" className=\"h-6 object-contain\" />\n            <img src=\x7bmicrosoftLogo\x7d alt=\"Microsoft\" className=\"h-6 object-contain\" />\n            <img src=\x7bcoinbaseLogo\x7d alt=\"Coinbase\" className=\"h-6 object-contain\" />\n            <img src=\x7bnikeLogo\x7d alt=\"Nike\" className=\"h-8 object-contain\" />\n          </div>\n        </div>\n      </section>\n\n      \x7b/* Features Grid */\x7d\n      <section id=\"features\" className=\"py-24 px-6 relative\">\n        <div className=\"max-w-7xl mx-auto\">\n          <div className=\"text-center mb-16\">\n            <h2 className=\"text-3xl md:text-4xl font-bold mb-4\">Everything you need to manage data</h2>\n            <p className=\"text-gray-400 max-w-2xl mx-auto\">\n              Stop wrestling with complex SQL clients. ChatSQL gives you a modern, \n              AI-powered environment to visualize, query, and manage your databases.\n            </p>\n          </div>\n\n          <div className=\"grid md:grid-cols-2 lg:grid-cols-3 gap-6\">\n            <FeatureCard \n              icon=\x7bZap\x7d\n              title=\"AI-Powered Queries\"\n              description=\"Write queries in plain English. Our advanced AI understands your schema and generates optimized SQL instantly.\"\n            />\n            <FeatureCard \n              icon=\x7bLayers\x7d\n              title=\"Visual Schema Builder\"\n              description=\"Design your database schema visually. Drag and drop tables, define relationships, and export SQL.\"\n            />\n            <FeatureCard \n              icon=\x7bShield\x7d\n              title=\"Enterprise Security\"\n              description=\"Bank-grade encryption for your connections. Role-based access control and audit logs included.\"\n            />\n            <FeatureCard \n              icon=\x7bGitBranch\x7d\n              title=\"Version Control\"\n              description=\"Track changes to your schema and queries. Rollback to previous versions with a single click.\"\n            />\n            <FeatureCard \n              icon=\x7bSearch\x7d\n              title=\"Smart Search\"\n              description=\"Find anything in your database instantly. Search across tables, columns, and saved queries.\"\n            />\n            <FeatureCard \n              icon=\x7bCode\x7d\n              title=\"API Generation\"\n              description=\"Automatically generate REST and GraphQL APIs from your database schema in seconds.\"\n            />\n          </div>\n        </div>\n      </section>\n\n      \x7b/* CTA Section */\x7d\n      <section className=\"py-24 px-6\">\n        <div className=\"max-w-4xl mx-auto text-center bg-gradient-to-b from-[#0f172a] to-[#020617] border border-white/10 rounded-2xl p-12 relative overflow-hidden\">\n          <div className=\"absolute top-0 left-0 w-full h-1 bg-gradient-to-r from-transparent via-indigo-500 to-transparent\" />\n          \n          <h2 className=\"text-3xl md:text-4xl font-bold mb-6\">Ready to modernize your workflow?</h2>\n          <p className=\"text-gray-400 mb-8 max-w-xl mx-auto\">\n            Join thousands of developers who are building faster with ChatSQL. \n            Start for free, no credit card required.\n          </p>\n          \n          <div className=\"flex flex-col sm:flex-row items-center justify-center gap-4\">\n            <Link to=\"/dashboard\" className=\"bg-white text-black hover:bg-gray-200 px-8 py-3 rounded-lg font-semibold transition-all w-full sm:w-auto\">\n              Get Started Now\n            </Link>\n            <Link to=\"/contact\" className=\"text-gray-300 hover:text-white font-medium px-8 py-3 w-full sm:w-auto\">\n              Contact Sales\n            </Link>\n          </div>\n        </div>\n      </section>\n\n      \x7b/* Footer */\x7d\n      <footer className=\"border-t border-white/5 py-12 px-6 bg-[#020617]\">\n        <div className=\"max-w-7xl mx-auto grid grid-cols-2 md:grid-cols-4 gap-8\">\n          <div className=\"col-span-2 md:col-span-1\">\n            <div className=\"flex items-center gap-2 mb-4\">\n              <Database className=\"w-5 h-5 text-indigo-500\" />\n              <span className=\"font-bold text-lg\">ChatSQL</span>\n            </div>\n            <p className=\"text-gray-500 text-sm\">\n              The modern database client for the AI era.\n            </p>\n          </div>\n          \n          <div>\n            <h4 className=\"font-semibold mb-4\">Product</h4>\n            <ul className=\"space-y-2 text-sm text-gray-400\">\n              <li><a href=\"#\" className=\"hover:text-white transition-colors\">Features</a></li>\n              <li><a href=\"#\" className=\"hover:text-white transition-colors\">Integrations</a></li>\n              <li><a href=\"#\" className=\"hover:text-white transition-colors\">Pricing</a></li>\n              <li><a href=\"#\" className=\"hover:text-white transition-colors\">Changelog</a></li>\n            </ul>\n          </div>\n          \n          <div>\n            <h4 className=\"font-semibold mb-4\">Resources</h4>\n            <ul className=\"space-y-2 text-sm text-gray-400\">\n              <li><a href=\"#\" className=\"hover:text-white transition-colors\">Documentation</a></li>\n              <li><a href=\"#\" className=\"hover:text-white transition-colors\">API Reference</a></li>\n              <li><a href=\"#\" className=\"hover:text-white transition-colors\">Community</a></li>\n              <li><a href=\"#\" className=\"hover:text-white transition-colors\">Blog</a></li>\n            </ul>\n          </div>\n          \n          <div>\n            <h4 className=\"font-semibold mb-4\">Company</h4>\n            <ul className=\"space-y-2 text-sm text-gray-400\">\n              <li><a href=\"#\" className=\"hover:text-white transition-colors\">About</a></li>\n              <li><a href=\"#\" className=\"hover:text-white transition-colors\">Careers</a></li>\n              <li><a href=\"#\" className=\"hover:text-white transition-colors\">Legal</a></li>\n              <li><a href=\"#\" className=\"hover:text-white transition-colors\">Contact</a></li>\n            </ul>\n          </div>\n        </div>\n        <div className=\"max-w-7xl mx-auto mt-12 pt-8 border-t border-white/5 text-center text-gray-600 text-sm\">\n          \xa9 2025 ChatSQL Inc. All rights reserved.\n        </div>\n      </footer>\n    </div>\n  );\n\x7d;\n\nexport default ChatSQLLanding;\n"

/-- The whole script as a process: given the command-line arguments and the
environment (both of which the script never reads), it performs the single
write of `new_content` to `file_path` and exits — code 0 on success, code 1
with the underlying error surfaced when the unhandled exception terminates
the interpreter. -/
def mainRun (args : List String) (env : String → Option String) (st : St) :
    Nat × Option IOErr × St :=
  match runScript file_path new_content st with
  | (Except.ok _, st1) => (0, none, st1)
  | (Except.error e, st1) => (1, some e, st1)

/-- A filesystem for concrete witnesses: the directory "/tmp" exists,
every path is writable, the device is healthy, and no file exists yet. -/
def fs0 : FS :=
  { dirs := fun d => decide (d = "/tmp")
    contents := fun _ => none
    writable := fun _ => true
    writeFails := false }

/-- Initial state over `fs0` with no open handles and an empty trace. -/
def st0 : St := { fs := fs0, openHandles := [], trace := [] }

/-- Like `st0` but the destination "/tmp/out.txt" pre-exists with
content "old". -/
def stC : St :=
  { fs := { fs0 with contents := fun q => if q = "/tmp/out.txt" then some "old" else none }
    openHandles := [], trace := [] }

/-- A state in which the parent directory of `file_path` exists, so the
script's own write succeeds. -/
def stM : St :=
  { fs := { dirs := fun d => decide (d = parentDir file_path)
            contents := fun _ => none
            writable := fun _ => true
            writeFails := false }
    openHandles := [], trace := [] }

/-- A state where no path is writable (used for the permission witness). -/
def stR : St :=
  { fs := { fs0 with writable := fun _ => false }, openHandles := [], trace := [] }

/-- A path is absolute when its first character is the root separator. -/
def isAbsolute (p : String) : Bool :=
  match p.data with
  | [] => false
  | c :: _ => decide (c = '/')

/-- C1: after a successful run, reading the destination back yields exactly
the payload — for every payload `t` and destination `p`, the final contents
at `p` equal `some t`, with nothing prepended, appended or transformed. -/
theorem c1_roundtrip (p t : String) (st st' : St)
    (h : runScript p t st = (Except.ok (), st')) :
    st'.fs.contents p = some t := by
  unfold runScript at h
  split at h
  · simp at h
  · split at h
    · simp at h
    · simp only [Prod.mk.injEq] at h
      obtain ⟨-, h2⟩ := h
      subst h2
      simp [FS.setFile]

/-- Witness for C1 at the concrete destination "/tmp/out.txt" and payload
"hello world" over the state `st0`. -/
theorem c1_roundtrip_witness :
    ((runScript "/tmp/out.txt" "hello world" st0).2).fs.contents "/tmp/out.txt"
      = some "hello world" :=
  c1_roundtrip "/tmp/out.txt" "hello world" st0
    ((runScript "/tmp/out.txt" "hello world" st0).2) rfl

/-- C2: the operation is destructive and total over prior state — when the
destination pre-exists with content `c ≠ t`, after a successful run the file
holds `t` and not `c`, and a successful open truncates the existing content
before anything is written (and creates the file when absent). -/
theorem c2_destructive (p t c : String) (st st' : St)
    (hpre : st.fs.contents p = some c) (hne : c ≠ t)
    (h : runScript p t st = (Except.ok (), st')) :
    st'.fs.contents p = some t ∧ st'.fs.contents p ≠ some c ∧
    ∀ fs1, openW st.fs p = Except.ok fs1 → fs1.contents p = some "" := by
  have hmain : st'.fs.contents p = some t := by
    unfold runScript at h
    split at h
    · simp at h
    · split at h
      · simp at h
      · simp only [Prod.mk.injEq] at h
        obtain ⟨-, h2⟩ := h
        subst h2
        simp [FS.setFile]
  refine ⟨hmain, ?_, ?_⟩
  · rw [hmain]
    intro hc
    exact hne (Option.some.injEq .. ▸ hc).symm
  · intro fs1 hop
    unfold openW at hop
    split at hop
    · simp at hop
    · split at hop
      · simp at hop
      · simp only [Except.ok.injEq] at hop
        subst hop
        simp [FS.setFile]

/-- Witness for C2: over `stC`, where "/tmp/out.txt" pre-exists containing
"old", a run with payload "hello world" succeeds and replaces the content. -/
theorem c2_destructive_witness :
    ((runScript "/tmp/out.txt" "hello world" stC).2).fs.contents "/tmp/out.txt"
        = some "hello world" ∧
    ((runScript "/tmp/out.txt" "hello world" stC).2).fs.contents "/tmp/out.txt"
        ≠ some "old" :=
  ⟨(c2_destructive "/tmp/out.txt" "hello world" "old" stC
      ((runScript "/tmp/out.txt" "hello world" stC).2) rfl (by decide) rfl).1,
   (c2_destructive "/tmp/out.txt" "hello world" "old" stC
      ((runScript "/tmp/out.txt" "hello world" stC).2) rfl (by decide) rfl).2.1⟩

/-- C3: when the destination path is not writable by the process, the
operation fails and leaves the whole state — in particular any prior content
of the destination — unchanged (error atomicity for permission denial). -/
theorem c3_permission_atomic (p t : String) (st : St)
    (hw : st.fs.writable p = false) :
    (runScript p t st).1 ≠ Except.ok () ∧ (runScript p t st).2 = st := by
  unfold runScript openW
  cases hd : st.fs.dirs (parentDir p) with
  | false => simp
  | true => simp [hw]

/-- Witness for C3 over `stR`, where nothing is writable. -/
theorem c3_permission_atomic_witness :
    (runScript "/tmp/out.txt" "hello world" stR).1 ≠ Except.ok () ∧
    (runScript "/tmp/out.txt" "hello world" stR).2 = stR :=
  c3_permission_atomic "/tmp/out.txt" "hello world" stR rfl

/-- Characterization of the final contents of any path `q` after one run:
the destination gets the payload exactly when the open and the write both
succeed, the destination gets truncated to "" when only the write fails,
and every other situation leaves `q` as it was. -/
theorem run_contents_char (p t q : String) (st : St) :
    ((runScript p t st).2).fs.contents q
      = if st.fs.dirs (parentDir p) = true ∧ st.fs.writable p = true ∧ q = p
        then some (if st.fs.writeFails = true then "" else t)
        else st.fs.contents q := by
  unfold runScript openW
  cases hd : st.fs.dirs (parentDir p) with
  | false => simp [hd]
  | true =>
    cases hw : st.fs.writable p with
    | false => simp [hd, hw]
    | true =>
      cases hf : st.fs.writeFails with
      | true =>
        by_cases hq : q = p
        · simp [hd, hw, hf, FS.setFile, hq]
        · simp [hd, hw, hf, FS.setFile, hq]
      | false =>
        by_cases hq : q = p
        · simp [hd, hw, hf, FS.setFile, hq]
        · simp [hd, hw, hf, FS.setFile, hq]

/-- One run never changes which directories exist, which paths are
writable, or whether the device fails writes. -/
theorem run_preserves_fields (p t : String) (st : St) :
    ((runScript p t st).2).fs.dirs = st.fs.dirs ∧
    ((runScript p t st).2).fs.writable = st.fs.writable ∧
    ((runScript p t st).2).fs.writeFails = st.fs.writeFails := by
  unfold runScript openW
  cases hd : st.fs.dirs (parentDir p) with
  | false => simp [hd]
  | true =>
    cases hw : st.fs.writable p with
    | false => simp [hd, hw]
    | true =>
      cases hf : st.fs.writeFails with
      | true => simp [hd, hw, hf, FS.setFile]
      | false => simp [hd, hw, hf, FS.setFile]

/-- C4: running the operation twice in succession yields the same final file
contents as running it once (for every starting state, at every path), and
when the run succeeds the destination holds the payload after one run and
after two. -/
theorem c4_idempotent (p t : String) (st : St) :
    (∀ q, ((runScript p t (runScript p t st).2).2).fs.contents q
        = ((runScript p t st).2).fs.contents q) ∧
    ((runScript p t st).1 = Except.ok () →
      ((runScript p t st).2).fs.contents p = some t ∧
      ((runScript p t (runScript p t st).2).2).fs.contents p = some t) := by
  constructor
  · intro q
    rw [run_contents_char p t q ((runScript p t st).2),
        run_contents_char p t q st,
        (run_preserves_fields p t st).1,
        (run_preserves_fields p t st).2.1,
        (run_preserves_fields p t st).2.2]
    by_cases hc : st.fs.dirs (parentDir p) = true ∧ st.fs.writable p = true ∧ q = p
    · simp [hc]
    · simp [hc]
  · intro hok
    cases hd : st.fs.dirs (parentDir p) with
    | false =>
      have h1 : runScript p t st = (Except.error IOErr.fileNotFound, st) := by
        unfold runScript openW; simp [hd]
      rw [h1] at hok
      simp at hok
    | true =>
      cases hw : st.fs.writable p with
      | false =>
        have h1 : runScript p t st = (Except.error IOErr.permissionDenied, st) := by
          unfold runScript openW; simp [hd, hw]
        rw [h1] at hok
        simp at hok
      | true =>
        cases hf : st.fs.writeFails with
        | true =>
          unfold runScript openW at hok
          simp [FS.setFile, hd, hw, hf] at hok
        | false =>
          constructor
          · rw [run_contents_char p t p st]
            simp [hd, hw, hf]
          · rw [run_contents_char p t p ((runScript p t st).2),
                (run_preserves_fields p t st).1,
                (run_preserves_fields p t st).2.1,
                (run_preserves_fields p t st).2.2]
            simp [hd, hw, hf]

/-- Witness for C4 at the concrete destination over `st0`. -/
theorem c4_idempotent_witness :
    ((runScript "/tmp/out.txt" "hello world"
        (runScript "/tmp/out.txt" "hello world" st0).2).2).fs.contents "/tmp/out.txt"
      = ((runScript "/tmp/out.txt" "hello world" st0).2).fs.contents "/tmp/out.txt" ∧
    ((runScript "/tmp/out.txt" "hello world" st0).2).fs.contents "/tmp/out.txt"
      = some "hello world" :=
  ⟨(c4_idempotent "/tmp/out.txt" "hello world" st0).1 "/tmp/out.txt",
   ((c4_idempotent "/tmp/out.txt" "hello world" st0).2 rfl).1⟩

/-- C5: when the parent directory of the destination does not exist, the
operation fails with the path-not-found error and the state is unchanged —
in particular the parent directory is not created. -/
theorem c5_missing_parent (p t : String) (st : St)
    (hd : st.fs.dirs (parentDir p) = false) :
    runScript p t st = (Except.error IOErr.fileNotFound, st) := by
  unfold runScript openW
  simp [hd]

/-- Witness for C5: over `st0` only "/tmp" exists, so a write below
"/missing" fails with the path-not-found error. -/
theorem c5_missing_parent_witness :
    runScript "/missing/x.txt" "hello world" st0
      = (Except.error IOErr.fileNotFound, st0) :=
  c5_missing_parent "/missing/x.txt" "hello world" st0 (by decide)

/-- C6: no filesystem error is caught or recovered: the script's result is
exactly that of the single write attempt (no retry, no fallback), exiting
with code 0 on success and code 1 ≠ 0 on failure with the underlying error
surfaced. -/
theorem c6_error_propagation (args : List String)
    (env : String → Option String) (st : St) :
    (∀ st1, runScript file_path new_content st = (Except.ok (), st1) →
        mainRun args env st = (0, none, st1)) ∧
    (∀ e st1, runScript file_path new_content st = (Except.error e, st1) →
        mainRun args env st = (1, some e, st1) ∧ (1 : Nat) ≠ 0) := by
  constructor
  · intro st1 h
    unfold mainRun
    rw [h]
  · intro e st1 h
    refine ⟨?_, by decide⟩
    unfold mainRun
    rw [h]

/-- Witness for C6 over `stM`, where the parent directory of `file_path`
exists: the script's own write succeeds and the process exits with 0. -/
theorem c6_error_propagation_witness :
    mainRun [] (fun _ => none) stM
      = (0, none, (runScript file_path new_content stM).2) :=
  (c6_error_propagation [] (fun _ => none) stM).1
    ((runScript file_path new_content stM).2) rfl

/-- C7: the destination path and payload are fixed constants: the script
consumes no command-line arguments, environment variables or configuration,
so any two runs from the same state are identical in exit code, surfaced
error and final state (noninterference of external inputs). -/
theorem c7_noninterference (args args' : List String)
    (env env' : String → Option String) (st : St) :
    mainRun args env st = mainRun args' env' st := rfl

/-- C8: the file handle is scoped: on every exit path the set of handles
still open is unchanged, and the trace shows that whenever the handle is
acquired it is released, with the write (when it happens) immediately after
acquisition and the release after it — including the path where the write
itself raises. -/
theorem c8_handle_released (p t : String) (st : St) :
    ((runScript p t st).2).openHandles = st.openHandles ∧
    (((runScript p t st).2).trace = st.trace ∨
     ((runScript p t st).2).trace = st.trace ++ [Ev.opened p, Ev.closed p] ∨
     ((runScript p t st).2).trace
        = st.trace ++ [Ev.opened p, Ev.wrote p, Ev.closed p]) := by
  unfold runScript openW
  cases hd : st.fs.dirs (parentDir p) with
  | false => simp [hd]
  | true =>
    cases hw : st.fs.writable p with
    | false => simp [hd, hw]
    | true =>
      cases hf : st.fs.writeFails with
      | true => simp [hd, hw, hf, FS.setFile]
      | false => simp [hd, hw, hf, FS.setFile]

/-- C9: frame property — a run modifies at most the file at the destination
path: every other file's contents, the set of directories and the
writability map are unchanged, whether the run succeeds or fails. -/
theorem c9_frame (p t q : String) (st : St) (hq : q ≠ p) :
    ((runScript p t st).2).fs.contents q = st.fs.contents q ∧
    ((runScript p t st).2).fs.dirs = st.fs.dirs ∧
    ((runScript p t st).2).fs.writable = st.fs.writable := by
  unfold runScript openW
  cases hd : st.fs.dirs (parentDir p) with
  | false => simp [hd]
  | true =>
    cases hw : st.fs.writable p with
    | false => simp [hd, hw]
    | true =>
      cases hf : st.fs.writeFails with
      | true => simp [hd, hw, hf, FS.setFile, hq]
      | false => simp [hd, hw, hf, FS.setFile, hq]

/-- Witness for C9: a run targeting "/tmp/out.txt" leaves "/etc/hosts"
untouched. -/
theorem c9_frame_witness :
    ((runScript "/tmp/out.txt" "hello world" st0).2).fs.contents "/etc/hosts"
        = st0.fs.contents "/etc/hosts" ∧
    ((runScript "/tmp/out.txt" "hello world" st0).2).fs.dirs = st0.fs.dirs ∧
    ((runScript "/tmp/out.txt" "hello world" st0).2).fs.writable
        = st0.fs.writable :=
  c9_frame "/tmp/out.txt" "hello world" "/etc/hosts" st0 (by decide)

/-- C10: the two constants satisfy the component contract's input
constraints: the destination path is a non-empty absolute path string and
the payload is a non-empty string. -/
theorem c10_constants_wellformed :
    file_path ≠ "" ∧ isAbsolute file_path = true ∧ new_content ≠ "" :=
  ⟨by decide, by decide, by decide⟩

end UpdateLanding
